import Mathlib

/-!
Verification development for the `accadm` password-administration service.

The definitions below are a shallow embedding of the Python sources under
`src/password_admin/`: the exception classes of `exceptions.py`, the LDAP
adapter `database/ldap/connection_ldap.py`, the PostgreSQL adapter
`database/postgres/connection_postgress.py`, the factory
`database/factory.py`, and the session store (`password_admin.sessions`,
modelled from the specification since the module is referenced by the test
suite but its source file is not present).  Backend library behaviour
(LDAP bind/search/modify outcomes, psycopg2 connect/execute outcomes) is
passed to each operation as an explicit outcome argument.
-/

namespace Accadm

/-- Kinds of the exception classes defined in `exceptions.py`. -/
inductive FaultKind
  | databaseConnectionError
  | databaseQueryError
  | databaseLoginError
  | sessionNotFoundError
  deriving DecidableEq, Repr

/-- A raised exception value: its class, the HTTP status code its
constructor sets, and the detail string. -/
structure Fault where
  kind : FaultKind
  status_code : Nat
  detail : String
  deriving DecidableEq, Repr

/-- Embeds `DatabaseConnectionError` of `exceptions.py`: status 503. -/
def DatabaseConnectionError (detail : String) : Fault :=
  ⟨FaultKind.databaseConnectionError, 503, detail⟩

/-- Embeds `DatabaseQueryError` of `exceptions.py`: status 500. -/
def DatabaseQueryError (detail : String) : Fault :=
  ⟨FaultKind.databaseQueryError, 500, detail⟩

/-- Embeds `DatabaseLoginError` of `exceptions.py`: status 401, detail
built from the supplied detail and the username (never the password). -/
def DatabaseLoginError (username : String) (detail : String) : Fault :=
  ⟨FaultKind.databaseLoginError, 401, detail ++ " for user \x27" ++ username ++ "\x27"⟩

/-- Embeds `SessionNotFoundError` of `exceptions.py`: status 401. -/
def SessionNotFoundError (detail : String) : Fault :=
  ⟨FaultKind.sessionNotFoundError, 401, detail⟩

/-- Credentials value object of `auth.py` (shape constraints are a
collaborator concern and not modelled). -/
structure LoginCredentials where
  username : String
  password : String
  deriving DecidableEq, Repr

/-- Fault raised by both adapters when an operation is called without an
established connection. -/
def notConnectedFault : Fault :=
  DatabaseConnectionError "Not connected. Call login() first."

/-! ## LDAP adapter (`database/ldap/connection_ldap.py`) -/

/-- State of a `DatabaseConnectionLdap` object: whether `self.server` is
set, and `self.connection` (`none` for `None`, `some b` for a connection
object whose `bound` flag is `b`). -/
structure LdapState where
  serverConfigured : Bool
  connection : Option Bool
  deriving DecidableEq, Repr

/-- State right after `__init__` with a valid configuration: server
configured, no connection. -/
def LdapState.init : LdapState := ⟨true, none⟩

/-- The check `self.connection and self.connection.bound` used by the
adapter's operations. -/
def LdapState.isBound (s : LdapState) : Bool :=
  match s.connection with
  | some b => b
  | none => false

/-- One LDAP directory entry as seen by the adapter: its DN and the value
of the configured name attribute, when the entry carries it. -/
structure LdapEntry where
  entry_dn : String
  nameValue : Option String
  deriving DecidableEq, Repr

/-- Embeds `DatabaseConnectionLdap.login`.  `bindResult` is the outcome of
`ldap3.Connection(..., auto_bind=True)`: `.error msg` stands for an
`LDAPException`, in which case the assignment to `self.connection` never
happens and the state is unchanged. -/
def ldapLogin (bindResult : Except String Unit) (creds : LoginCredentials)
    (s : LdapState) : Except Fault Unit × LdapState :=
  if s.serverConfigured = false then
    (Except.error (DatabaseConnectionError "Server not configured. Call config() first."), s)
  else
    match bindResult with
    | Except.ok _ => (Except.ok (), { s with connection := some true })
    | Except.error e =>
        (Except.error (DatabaseLoginError creds.username ("Login error: " ++ e)), s)

/-- Embeds `DatabaseConnectionLdap.get_users`.  `searchResult` is the
outcome of `connection.search`; on success the adapter collects the name
attribute of every entry that has it. -/
def ldapGetUsers (searchResult : Except String (List LdapEntry))
    (s : LdapState) : Except Fault (List String) :=
  if s.isBound = false then Except.error notConnectedFault
  else
    match searchResult with
    | Except.error e => Except.error (DatabaseQueryError ("Error retrieving users: " ++ e))
    | Except.ok entries => Except.ok (entries.filterMap (fun en => en.nameValue))

/-- Embeds `DatabaseConnectionLdap.set_password`.  `searchResult` is the
outcome of the filtered search for the target user, `modifyResult` the
outcome of `connection.modify` (the server result code, or an
`LDAPException` message).  The returned `Bool` records whether the
password modification was applied on the server. -/
def ldapSetPassword (searchResult : Except String (List LdapEntry))
    (modifyResult : Except String Nat) (creds : LoginCredentials)
    (s : LdapState) : Except Fault Unit × Bool :=
  if s.isBound = false then (Except.error notConnectedFault, false)
  else
    match searchResult with
    | Except.error e =>
        (Except.error (DatabaseQueryError ("Error editing user: " ++ e)), false)
    | Except.ok entries =>
        if entries.length = 0 then
          (Except.error (SessionNotFoundError
            ("No user found with identifier: " ++ creds.username)), false)
        else if 1 < entries.length then
          (Except.error (SessionNotFoundError
            ("Multiple users found with identifier: " ++ creds.username)), false)
        else
          match modifyResult with
          | Except.error e =>
              (Except.error (DatabaseQueryError ("Error editing user: " ++ e)), false)
          | Except.ok code =>
              if code = 0 then (Except.ok (), true)
              else
                (Except.error (DatabaseQueryError
                  ("Modify operation failed: " ++ toString code)), false)

/-- Embeds `DatabaseConnectionLdap.logout`.  `unbindResult` is the outcome
of `connection.unbind`; when no bound connection exists the body is a
no-op (`Logout not needed`). -/
def ldapLogout (unbindResult : Except String Unit) (s : LdapState) :
    Except Fault Unit × LdapState :=
  if s.isBound then
    match unbindResult with
    | Except.ok _ => (Except.ok (), { s with connection := none })
    | Except.error e =>
        (Except.error (DatabaseConnectionError ("Logout error: " ++ e)), s)
  else (Except.ok (), s)

/-! ## PostgreSQL adapter (`database/postgres/connection_postgress.py`) -/

/-- State of a `DatabaseConnectionPostgres` object: whether
`self.connection` and `self.cursor` are set. -/
structure PgState where
  connection : Bool
  cursor : Bool
  deriving DecidableEq, Repr

/-- State right after `__init__`: no connection, no cursor. -/
def PgState.init : PgState := ⟨false, false⟩

/-- The check `self.connection and self.cursor` used by the adapter's
query operations (negated in the source as `not ... or not ...`). -/
def PgState.isConnected (s : PgState) : Bool := s.connection && s.cursor

/-- Exceptions of the psycopg2 library the adapter catches. -/
inductive PgError
  | programming (msg : String)
  | valueError (msg : String)
  deriving DecidableEq, Repr

/-- Embeds `DatabaseConnectionPostgres.login`.  `connectResult` is the
outcome of `psycopg2.connect` (plus cursor creation): `.error msg` stands
for an `OperationalError`, in which case neither `self.connection` nor
`self.cursor` is assigned. -/
def pgLogin (connectResult : Except String Unit) (creds : LoginCredentials)
    (s : PgState) : Except Fault Unit × PgState :=
  match connectResult with
  | Except.ok _ => (Except.ok (), ⟨true, true⟩)
  | Except.error e =>
      (Except.error (DatabaseLoginError creds.username ("Login error: " ++ e)), s)

/-- Embeds `DatabaseConnectionPostgres.get_users`.  `queryResult` is the
outcome of executing `users_query` and fetching all rows; rows are
represented by their first column. -/
def pgGetUsers (queryResult : Except PgError (List String)) (s : PgState) :
    Except Fault (List String) :=
  if s.isConnected = false then Except.error notConnectedFault
  else
    match queryResult with
    | Except.ok rows => Except.ok rows
    | Except.error (PgError.programming e) =>
        Except.error (DatabaseQueryError ("Error retrieving users: " ++ e))
    | Except.error (PgError.valueError e) =>
        Except.error (DatabaseConnectionError ("Error retrieving users: " ++ e))

/-- Embeds `DatabaseConnectionPostgres.set_password`.  `execResult` is the
outcome of executing the rewritten `password_query`: on success it is
`cursor.rowcount`.  The returned `Bool` records whether any row was
updated (the transaction is committed before the rowcount check, but a
zero rowcount means nothing was changed). -/
def pgSetPassword (execResult : Except PgError Nat) (creds : LoginCredentials)
    (s : PgState) : Except Fault Unit × Bool :=
  if s.isConnected = false then (Except.error notConnectedFault, false)
  else
    match execResult with
    | Except.error (PgError.programming e) =>
        (Except.error (DatabaseQueryError ("Error updating password: " ++ e)), false)
    | Except.error (PgError.valueError e) =>
        (Except.error (DatabaseConnectionError ("Error updating password: " ++ e)), false)
    | Except.ok rowcount =>
        if 0 < rowcount then (Except.ok (), true)
        else
          (Except.error (SessionNotFoundError
            ("No user found with identifier: " ++ creds.username)), false)

/-- Embeds `DatabaseConnectionPostgres.logout`.  `cursorCloseResult` and
`connCloseResult` are the outcomes of `cursor.close()` and
`connection.close()`; the fields are reset only after the connection
closes successfully, and nothing happens when both are absent. -/
def pgLogout (cursorCloseResult connCloseResult : Except String Unit)
    (s : PgState) : Except Fault Unit × PgState :=
  if s.cursor then
    match cursorCloseResult with
    | Except.error e =>
        (Except.error (DatabaseConnectionError ("Logout error: " ++ e)), s)
    | Except.ok _ =>
        if s.connection then
          match connCloseResult with
          | Except.error e =>
              (Except.error (DatabaseConnectionError ("Logout error: " ++ e)), s)
          | Except.ok _ => (Except.ok (), ⟨false, false⟩)
        else (Except.ok (), s)
  else
    if s.connection then
      match connCloseResult with
      | Except.error e =>
          (Except.error (DatabaseConnectionError ("Logout error: " ++ e)), s)
      | Except.ok _ => (Except.ok (), ⟨false, false⟩)
    else (Except.ok (), s)

/-! ## Factory (`database/factory.py`) -/

/-- The configuration held by `DbConnectionFactory`.  For LDAP the only
structural field `create` can fail on is the hostname parsed from the DSN
(`none` models a DSN without hostname); any configuration type other than
`LdapConfig`/`PostgresConfig` is `unsupported` with its type name. -/
inductive FactoryConfig
  | ldap (dsnHost : Option String)
  | postgres (dsn : String)
  | unsupported (typeName : String)
  deriving DecidableEq, Repr

/-- A connection object as returned by `DbConnectionFactory.create`. -/
inductive CreatedConnection
  | ldapConn (s : LdapState)
  | pgConn (s : PgState)
  deriving DecidableEq, Repr

/-- A freshly created connection is unauthenticated: no bind and no
database connection has been attempted. -/
def CreatedConnection.isUnauthenticated : CreatedConnection → Bool
  | CreatedConnection.ldapConn s => !s.isBound
  | CreatedConnection.pgConn s => !s.isConnected

/-- Embeds `DbConnectionFactory.create` together with the constructors it
invokes (`DatabaseConnectionLdap.__init__`/`config`, which only parses the
DSN and builds a `Server` object, and `DatabaseConnectionPostgres.__init__`,
which only stores the configuration).  No branch performs network I/O:
connecting happens only in `login`. -/
def factoryCreate : FactoryConfig → Except Fault CreatedConnection
  | FactoryConfig.ldap (some _) => Except.ok (CreatedConnection.ldapConn LdapState.init)
  | FactoryConfig.ldap none =>
      Except.error (DatabaseConnectionError "Invalid DSN: Missing hostname")
  | FactoryConfig.postgres _ => Except.ok (CreatedConnection.pgConn PgState.init)
  | FactoryConfig.unsupported n =>
      Except.error (DatabaseConnectionError ("Unsupported config type: " ++ n))

/-! ## Session store (`password_admin.sessions.SessionStore`) -/

/-- Session settings of `settings.py` (`SessionSettings`): id length,
duration in seconds, maximum number of sessions. -/
structure SessionSettings where
  id_length : Nat
  duration_seconds : Nat
  max_amount : Nat
  deriving DecidableEq, Repr

/-- Default values of `SessionSettings` in `settings.py`. -/
def defaultSessionSettings : SessionSettings := ⟨64, 900, 1024⟩

/-- One recorded session: the connection instance bound to it (an instance
tag — distinct tags are distinct connection objects) and its absolute
expiry timestamp. -/
structure SessionEntry where
  conn : Nat
  expires_at : Nat
  deriving DecidableEq, Repr

/-- Modelled from the spec: fresh session-id generation.  The spec requires
an opaque, non-empty, cryptographically unguessable identifier generated
fresh on each `create_session` call; unguessability is not formalised — the
model keeps the properties the claims use, non-emptiness and freshness
(injectivity in the per-store creation counter). -/
def genSessionId (n : Nat) : String :=
  String.mk ('s' :: List.replicate n 'i')

/-- Modelled from the spec: the state of `SessionStore`
(`password_admin.sessions` is referenced by the test suite but absent from
the sources).  `sessions` is the identifier-to-session map, `counter`
counts successful creations (it tags fresh connection instances and feeds
the id generator), and `issued` is specification bookkeeping: every
identifier ever returned by `create_session`. -/
structure SessionStore where
  settings : SessionSettings
  sessions : List (String × SessionEntry)
  counter : Nat
  issued : List String

/-- Dictionary lookup in the session map. -/
def lookupSession (sid : String) : List (String × SessionEntry) → Option SessionEntry
  | [] => none
  | p :: rest => if p.1 = sid then some p.2 else lookupSession sid rest

/-- Dictionary removal from the session map. -/
def removeSession (sid : String) : List (String × SessionEntry) → List (String × SessionEntry)
  | [] => []
  | p :: rest => if p.1 = sid then removeSession sid rest else p :: removeSession sid rest

/-- Modelled from the spec: a lookup that treats entries past their
`expires_at` as absent (lazy expiry — `get_db_connection` must never
return an expired session's connection, and expiry counts as absence). -/
def SessionStore.validLookup (now : Nat) (st : SessionStore) (sid : String) :
    Option SessionEntry :=
  match lookupSession sid st.sessions with
  | none => none
  | some e => if e.expires_at < now then none else some e

/-- Modelled from the spec: `SessionStore.create_session`.  A connection is
obtained from the factory (the fresh instance tag `st.counter`) and
`login(credentials)` is called on it; `loginResult` is that call's outcome.
On success a fresh identifier is generated, the session is recorded with
`expires_at = now + duration_seconds`, and the identifier is returned.  On
login failure the fault propagates unchanged and the store is untouched. -/
def createSession (loginResult : Except Fault Unit) (now : Nat)
    (st : SessionStore) (creds : LoginCredentials) :
    Except Fault String × SessionStore :=
  match loginResult with
  | Except.error e => (Except.error e, st)
  | Except.ok _ =>
      let sid := genSessionId st.counter
      (Except.ok sid,
        { st with
          sessions := (sid, ⟨st.counter, now + st.settings.duration_seconds⟩) :: st.sessions,
          counter := st.counter + 1,
          issued := sid :: st.issued })

/-- Modelled from the spec: `SessionStore.get_db_connection`.  Absent and
expired identifiers signal the same `SessionNotFoundError`; a live session
yields its connection, read-only. -/
def getDbConnection (now : Nat) (st : SessionStore) (sid : String) :
    Except Fault Nat :=
  match st.validLookup now sid with
  | none => Except.error (SessionNotFoundError "Session not found")
  | some e => Except.ok e.conn

/-- Modelled from the spec: `SessionStore.destroy_session`.  For a live
session, `logout()` is called on its connection (its outcome
`logoutResult` is swallowed — logged, never propagated) and the entry is
removed; for an absent or expired identifier the call is a no-op.  The
returned `Bool` records whether `logout()` was called.  The return type
carries no fault: `destroy_session` never raises. -/
def destroySession (logoutResult : Except Fault Unit) (now : Nat)
    (st : SessionStore) (sid : String) : SessionStore × Bool :=
  match st.validLookup now sid with
  | none => (st, false)
  | some _ => ({ st with sessions := removeSession sid st.sessions }, true)

/-- Invariant of the session store: every issued identifier and every key
of the session map was generated from an index below `counter`, and every
recorded connection tag is below `counter`. -/
def StoreInv (st : SessionStore) : Prop :=
  (∀ sid, sid ∈ st.issued → ∃ i, i < st.counter ∧ sid = genSessionId i) ∧
  (∀ p, p ∈ st.sessions →
    (∃ i, i < st.counter ∧ p.1 = genSessionId i) ∧ p.2.conn < st.counter)

/-- The empty store a `SessionStore` starts from. -/
def emptyStore : SessionStore := ⟨defaultSessionSettings, [], 0, []⟩

/-! ## PostgreSQL password-query rewriting
(`DatabaseConnectionPostgres.set_password`, lines 137-140) -/

/-- Leftmost replacement of the two-character pattern `p1 p2` by `r1 r2`,
as Python's `str.replace` does for two-character patterns.  Query strings
are modelled as character lists. -/
def replacePair (p1 p2 r1 r2 : Char) : List Char → List Char
  | [] => []
  | [c] => [c]
  | c1 :: c2 :: rest =>
      if c1 = p1 ∧ c2 = p2 then r1 :: r2 :: replacePair p1 p2 r1 r2 rest
      else c1 :: replacePair p1 p2 r1 r2 (c2 :: rest)

/-- Embeds `query.replace('%p', '%s').replace('%u', '%s')`. -/
def pgRewritePasswordQuery (q : List Char) : List Char :=
  replacePair '%' 'u' '%' 's' (replacePair '%' 'p' '%' 's' q)

/-- Positional parameter binding of `cursor.execute(query, params)`:
each successive `%s` placeholder is substituted by the next parameter. -/
def substParams : List Char → List (List Char) → List Char
  | [], _ => []
  | [c], _ => [c]
  | c1 :: c2 :: rest, ps =>
      if c1 = '%' ∧ c2 = 's' then
        match ps with
        | [] => c1 :: c2 :: substParams rest []
        | p :: tl => p ++ substParams rest tl
      else c1 :: substParams (c2 :: rest) ps

/-- The effective statement `set_password` executes: the configured
`password_query` rewritten, with parameters bound positionally as
`(credentials.password, credentials.username)`. -/
def pgEffectiveSetPasswordQuery (q password username : List Char) : List Char :=
  substParams (pgRewritePasswordQuery q) [password, username]

/-! ## Helper lemmas -/

theorem genSessionId_injective (m n : Nat) (h : genSessionId m = genSessionId n) :
    m = n := by
  unfold genSessionId at h
  injection h with h2
  injection h2 with _ h3
  have h4 := congrArg List.length h3
  simpa using h4

theorem genSessionId_ne_empty (n : Nat) : genSessionId n ≠ "" := by
  intro h
  have h2 := congrArg String.length h
  simp [genSessionId, String.length] at h2

theorem lookupSession_eq_none (sid : String) (l : List (String × SessionEntry))
    (h : ∀ p ∈ l, p.1 ≠ sid) : lookupSession sid l = none := by
  induction l with
  | nil => rfl
  | cons p rest ih =>
    unfold lookupSession
    rw [if_neg (h p (by simp))]
    exact ih (fun q hq => h q (by simp [hq]))

theorem lookupSession_cons_self (sid : String) (e : SessionEntry)
    (rest : List (String × SessionEntry)) :
    lookupSession sid ((sid, e) :: rest) = some e := by
  simp [lookupSession]

theorem removeSession_lookup (sid : String) (l : List (String × SessionEntry)) :
    lookupSession sid (removeSession sid l) = none := by
  induction l with
  | nil => rfl
  | cons p rest ih =>
    unfold removeSession
    by_cases hp : p.1 = sid
    · rw [if_pos hp]
      exact ih
    · rw [if_neg hp]
      unfold lookupSession
      rw [if_neg hp]
      exact ih

theorem storeInv_empty : StoreInv emptyStore :=
  ⟨fun sid h => absurd h (List.not_mem_nil sid),
   fun p h => absurd h (List.not_mem_nil p)⟩

/-- A store holding one session created at time 0 with a 1-second window,
used to exercise expiry. -/
def sampleStore : SessionStore := ⟨defaultSessionSettings, [("sid", ⟨0, 1⟩)], 1, []⟩

/-! ## Claim theorems -/

/-- C9 counterexample: `DatabaseLoginError` (authentication-failed) and
`SessionNotFoundError` (session-not-found) are different fault kinds, yet
their constructors set the same HTTP status 401, so the two kinds do not
map to distinct statuses. -/
theorem loginError_sessionNotFound_same_status :
    (DatabaseLoginError "user" "Login failed").kind ≠
      (SessionNotFoundError "Session not found").kind ∧
    (DatabaseLoginError "user" "Login failed").status_code =
      (SessionNotFoundError "Session not found").status_code ∧
    (SessionNotFoundError "Session not found").status_code = 401 := by
  refine ⟨?_, rfl, rfl⟩
  intro h
  simp [DatabaseLoginError, SessionNotFoundError] at h

/-- C9 (amended): the exception classes carry statuses 503
(`DatabaseConnectionError`), 500 (`DatabaseQueryError`), 401
(`DatabaseLoginError`) and 401 (`SessionNotFoundError`); the kinds are
distinct as classes and differ in detail text, but authentication-failed
and session-not-found share status 401, the factory signals invalid
configuration through the connectivity class, and `set_password` reuses
`SessionNotFoundError` for a missing target user. -/
theorem fault_status_mapping :
    (∀ d, (DatabaseConnectionError d).status_code = 503) ∧
    (∀ d, (DatabaseQueryError d).status_code = 500) ∧
    (∀ u d, (DatabaseLoginError u d).status_code = 401) ∧
    (∀ d, (SessionNotFoundError d).status_code = 401) ∧
    (∀ u d d2, (DatabaseLoginError u d).kind = FaultKind.databaseLoginError ∧
      (SessionNotFoundError d2).kind = FaultKind.sessionNotFoundError) ∧
    (DatabaseLoginError "user" "Login failed").detail ≠
      (SessionNotFoundError "Session not found").detail ∧
    (∀ n, factoryCreate (FactoryConfig.unsupported n) =
      Except.error (DatabaseConnectionError ("Unsupported config type: " ++ n))) ∧
    (∀ u, (SessionNotFoundError ("No user found with identifier: " ++ u)).kind =
      (SessionNotFoundError "Session not found").kind) := by
  refine ⟨fun d => rfl, fun d => rfl, fun u d => rfl, fun d => rfl,
    fun u d d2 => ⟨rfl, rfl⟩, ?_, fun n => rfl, fun u => rfl⟩
  intro h
  simp [DatabaseLoginError, SessionNotFoundError] at h

/-- Witness for the amended C9 theorem at the constructors' default
detail strings. -/
theorem fault_status_mapping_witness :
    (DatabaseConnectionError "Communication error").status_code = 503 ∧
    (DatabaseQueryError "Internal error").status_code = 500 ∧
    (DatabaseLoginError "user" "Login failed").status_code = 401 ∧
    (SessionNotFoundError "Session not found").status_code = 401 :=
  ⟨fault_status_mapping.1 "Communication error",
   fault_status_mapping.2.1 "Internal error",
   fault_status_mapping.2.2.1 "user" "Login failed",
   fault_status_mapping.2.2.2.1 "Session not found"⟩

/-- C5 counterexample: with zero matching accounts, `set_password` of both
backend variants raises `SessionNotFoundError` — the very same fault kind
the session store uses for an unknown session id — so the fault raised on
a missing target is not distinct from the session-not-found kind. -/
theorem setPassword_not_found_kind_cx :
    (ldapSetPassword (Except.ok []) (Except.ok 0) ⟨"user", "pass"⟩ ⟨true, some true⟩).1 =
      Except.error (SessionNotFoundError "No user found with identifier: user") ∧
    (pgSetPassword (Except.ok 0) ⟨"user", "pass"⟩ ⟨true, true⟩).1 =
      Except.error (SessionNotFoundError "No user found with identifier: user") ∧
    (SessionNotFoundError "No user found with identifier: user").kind =
      (SessionNotFoundError "Session not found").kind ∧
    getDbConnection 0 emptyStore "user" =
      Except.error (SessionNotFoundError "Session not found") := by
  refine ⟨?_, ?_, rfl, rfl⟩ <;> rfl

/-- C5 (amended): on an authenticated connection, `set_password` signals a
fault when zero accounts match (both backends) and when more than one
matches (LDAP), and in no faulting case is the update applied; but the
fault raised for zero or multiple matches is `SessionNotFoundError`, the
session-not-found kind, not a separate target-not-found/ambiguous-target
kind. -/
theorem setPassword_target_faults (s : LdapState) (ps : PgState)
    (creds : LoginCredentials) (entries : List LdapEntry)
    (mres : Except String Nat)
    (hs : s.isBound = true) (hp : ps.isConnected = true)
    (hlen : 1 < entries.length) :
    ldapSetPassword (Except.ok []) mres creds s =
      (Except.error (SessionNotFoundError
        ("No user found with identifier: " ++ creds.username)), false) ∧
    ldapSetPassword (Except.ok entries) mres creds s =
      (Except.error (SessionNotFoundError
        ("Multiple users found with identifier: " ++ creds.username)), false) ∧
    pgSetPassword (Except.ok 0) creds ps =
      (Except.error (SessionNotFoundError
        ("No user found with identifier: " ++ creds.username)), false) ∧
    (∀ sr mr, (ldapSetPassword sr mr creds s).2 = false ∨
      (ldapSetPassword sr mr creds s).1 = Except.ok ()) ∧
    (∀ er, (pgSetPassword er creds ps).2 = false ∨
      (pgSetPassword er creds ps).1 = Except.ok ()) := by
  have h0 : ¬(entries.length = 0) := by omega
  refine ⟨?_, ?_, ?_, ?_, ?_⟩
  · simp [ldapSetPassword, hs]
  · simp [ldapSetPassword, hs, h0, hlen]
  · simp [pgSetPassword, hp]
  · intro sr mr
    rcases sr with e | ent
    · left
      simp [ldapSetPassword, hs]
    · by_cases he0 : ent.length = 0
      · left
        simp [ldapSetPassword, hs, he0]
      · by_cases he1 : 1 < ent.length
        · left
          simp [ldapSetPassword, hs, he0, he1]
        · rcases mr with e2 | code
          · left
            simp [ldapSetPassword, hs, he0, he1]
          · by_cases hcd : code = 0
            · right
              simp [ldapSetPassword, hs, he0, he1, hcd]
            · left
              simp [ldapSetPassword, hs, he0, he1, hcd]
  · intro er
    rcases er with pe | rc
    · rcases pe with e | e
      · left
        simp [pgSetPassword, hp]
      · left
        simp [pgSetPassword, hp]
    · by_cases hrc : 0 < rc
      · right
        simp [pgSetPassword, hp, hrc]
      · left
        simp [pgSetPassword, hp, hrc]

/-- Witness for the amended C5 theorem at concrete inputs. -/
theorem setPassword_target_faults_witness :
    ldapSetPassword (Except.ok []) (Except.ok 0) ⟨"user", "pass"⟩ ⟨true, some true⟩ =
      (Except.error (SessionNotFoundError "No user found with identifier: user"), false) ∧
    ldapSetPassword (Except.ok [⟨"dn1", some "user"⟩, ⟨"dn2", some "user"⟩])
        (Except.ok 0) ⟨"user", "pass"⟩ ⟨true, some true⟩ =
      (Except.error (SessionNotFoundError "Multiple users found with identifier: user"), false) ∧
    pgSetPassword (Except.ok 0) ⟨"user", "pass"⟩ ⟨true, true⟩ =
      (Except.error (SessionNotFoundError "No user found with identifier: user"), false) ∧
    (∀ sr mr, (ldapSetPassword sr mr ⟨"user", "pass"⟩ ⟨true, some true⟩).2 = false ∨
      (ldapSetPassword sr mr ⟨"user", "pass"⟩ ⟨true, some true⟩).1 = Except.ok ()) ∧
    (∀ er, (pgSetPassword er ⟨"user", "pass"⟩ ⟨true, true⟩).2 = false ∨
      (pgSetPassword er ⟨"user", "pass"⟩ ⟨true, true⟩).1 = Except.ok ()) :=
  setPassword_target_faults ⟨true, some true⟩ ⟨true, true⟩ ⟨"user", "pass"⟩
    [⟨"dn1", some "user"⟩, ⟨"dn2", some "user"⟩] (Except.ok 0)
    rfl rfl (by decide)

/-- C6: on either backend variant, `get_users` and `set_password` signal
the "not connected" fault whenever no successful login has established a
connection, and a failed login attempt leaves the adapter state unchanged
(so the fault still occurs afterwards); a fresh adapter starts
unauthenticated. -/
theorem notConnected_before_login (s : LdapState) (ps : PgState)
    (creds : LoginCredentials) (m : String)
    (sr : Except String (List LdapEntry)) (mr : Except String Nat)
    (qr : Except PgError (List String)) (er : Except PgError Nat)
    (hs : s.isBound = false) (hp : ps.isConnected = false) :
    (ldapLogin (Except.error m) creds s).2 = s ∧
    ldapGetUsers sr s = Except.error notConnectedFault ∧
    (ldapSetPassword sr mr creds s).1 = Except.error notConnectedFault ∧
    LdapState.init.isBound = false ∧
    (pgLogin (Except.error m) creds ps).2 = ps ∧
    pgGetUsers qr ps = Except.error notConnectedFault ∧
    (pgSetPassword er creds ps).1 = Except.error notConnectedFault ∧
    PgState.init.isConnected = false := by
  refine ⟨?_, ?_, ?_, rfl, rfl, ?_, ?_, rfl⟩
  · unfold ldapLogin
    by_cases hc : s.serverConfigured = false <;> simp [hc]
  · simp [ldapGetUsers, hs]
  · simp [ldapSetPassword, hs]
  · simp [pgGetUsers, hp]
  · simp [pgSetPassword, hp]

/-- Witness for C6 on freshly constructed adapters. -/
theorem notConnected_before_login_witness :
    (ldapLogin (Except.error "invalid credentials") ⟨"user", "pass"⟩ LdapState.init).2 =
      LdapState.init ∧
    ldapGetUsers (Except.ok []) LdapState.init = Except.error notConnectedFault ∧
    (ldapSetPassword (Except.ok []) (Except.ok 0) ⟨"user", "pass"⟩ LdapState.init).1 =
      Except.error notConnectedFault ∧
    LdapState.init.isBound = false ∧
    (pgLogin (Except.error "invalid credentials") ⟨"user", "pass"⟩ PgState.init).2 =
      PgState.init ∧
    pgGetUsers (Except.ok []) PgState.init = Except.error notConnectedFault ∧
    (pgSetPassword (Except.ok 0) ⟨"user", "pass"⟩ PgState.init).1 =
      Except.error notConnectedFault ∧
    PgState.init.isConnected = false :=
  notConnected_before_login LdapState.init PgState.init ⟨"user", "pass"⟩
    "invalid credentials" (Except.ok []) (Except.ok 0) (Except.ok []) (Except.ok 0)
    rfl rfl

/-- C7: on either backend variant, `logout` with no established connection
— never logged in, or already logged out — returns without any fault and
leaves the state unchanged; after a successful logout the adapters are
back in the unestablished state, so a repeated logout is again a no-op. -/
theorem logout_idempotent (s : LdapState) (ps : PgState)
    (u cc nc : Except String Unit)
    (hs : s.isBound = false) (hpc : ps.cursor = false) (hpn : ps.connection = false) :
    ldapLogout u s = (Except.ok (), s) ∧
    (∀ s2, (ldapLogout (Except.ok ()) s2).2.isBound = false) ∧
    pgLogout cc nc ps = (Except.ok (), ps) ∧
    (pgLogout (Except.ok ()) (Except.ok ()) ⟨true, true⟩).2.cursor = false ∧
    (pgLogout (Except.ok ()) (Except.ok ()) ⟨true, true⟩).2.connection = false ∧
    LdapState.init.isBound = false ∧
    PgState.init.cursor = false ∧ PgState.init.connection = false := by
  refine ⟨?_, ?_, ?_, rfl, rfl, rfl, rfl, rfl⟩
  · simp [ldapLogout, hs]
  · intro s2
    unfold ldapLogout
    by_cases hb : s2.isBound = true
    · rw [if_pos hb]
      simp [LdapState.isBound]
    · rw [if_neg hb]
      simp only [Bool.not_eq_true] at hb
      exact hb
  · simp [pgLogout, hpc, hpn]

/-- Witness for C7 on freshly constructed adapters, with faulting close
outcomes to show no fault surfaces. -/
theorem logout_idempotent_witness :
    ldapLogout (Except.error "server unreachable") LdapState.init =
      (Except.ok (), LdapState.init) ∧
    (∀ s2, (ldapLogout (Except.ok ()) s2).2.isBound = false) ∧
    pgLogout (Except.error "server unreachable") (Except.error "server unreachable")
        PgState.init = (Except.ok (), PgState.init) ∧
    (pgLogout (Except.ok ()) (Except.ok ()) ⟨true, true⟩).2.cursor = false ∧
    (pgLogout (Except.ok ()) (Except.ok ()) ⟨true, true⟩).2.connection = false ∧
    LdapState.init.isBound = false ∧
    PgState.init.cursor = false ∧ PgState.init.connection = false :=
  logout_idempotent LdapState.init PgState.init (Except.error "server unreachable")
    (Except.error "server unreachable") (Except.error "server unreachable")
    rfl rfl rfl

/-- C8: `DbConnectionFactory.create` signals the configuration-invalid
fault (raised as `DatabaseConnectionError`) for an unrecognized backend
kind and for an LDAP configuration whose DSN lacks a hostname, and every
connection it does return is unauthenticated — the embedding of `create`
contains no connect step, so the fault precedes any network I/O and no
connection attempt is ever made. -/
theorem factoryCreate_invalid_config (n : String) :
    factoryCreate (FactoryConfig.unsupported n) =
      Except.error (DatabaseConnectionError ("Unsupported config type: " ++ n)) ∧
    factoryCreate (FactoryConfig.ldap none) =
      Except.error (DatabaseConnectionError "Invalid DSN: Missing hostname") ∧
    (DatabaseConnectionError ("Unsupported config type: " ++ n)).kind =
      FaultKind.databaseConnectionError ∧
    (∀ cfg conn, factoryCreate cfg = Except.ok conn →
      conn.isUnauthenticated = true) := by
  refine ⟨rfl, rfl, rfl, ?_⟩
  intro cfg conn h
  rcases cfg with ho | d | n2
  · rcases ho with _ | host
    · exact absurd h (by simp [factoryCreate])
    · have hc : conn = CreatedConnection.ldapConn LdapState.init := by
        simpa [factoryCreate] using h.symm
      rw [hc]
      rfl
  · have hc : conn = CreatedConnection.pgConn PgState.init := by
      simpa [factoryCreate] using h.symm
    rw [hc]
    rfl
  · exact absurd h (by simp [factoryCreate])

/-- Witness for C8: the dummy test configuration type is rejected with the
configuration-invalid fault, and a connection created from a valid
PostgreSQL configuration is unauthenticated. -/
theorem factoryCreate_invalid_config_witness :
    factoryCreate (FactoryConfig.unsupported "DummyDbConfig") =
      Except.error (DatabaseConnectionError "Unsupported config type: DummyDbConfig") ∧
    (CreatedConnection.pgConn PgState.init).isUnauthenticated = true :=
  ⟨(factoryCreate_invalid_config "DummyDbConfig").1,
   (factoryCreate_invalid_config "DummyDbConfig").2.2.2
     (FactoryConfig.postgres "postgres://localhost:5432/postgres") (CreatedConnection.pgConn PgState.init) rfl⟩

/-- C1: when the backend login faults (authentication-failed,
connectivity, or any other fault), `create_session` propagates that exact
fault and the store is exactly as before the call; the identifier the
attempt would have derived is unknown to `get_db_connection`, which
signals session-not-found for it. -/
theorem createSession_fault_propagates (e : Fault) (st : SessionStore)
    (creds : LoginCredentials) (now now2 : Nat) (hinv : StoreInv st) :
    createSession (Except.error e) now st creds = (Except.error e, st) ∧
    getDbConnection now2 st (genSessionId st.counter) =
      Except.error (SessionNotFoundError "Session not found") := by
  constructor
  · rfl
  · have hl : lookupSession (genSessionId st.counter) st.sessions = none := by
      apply lookupSession_eq_none
      intro p hp hkey
      rcases (hinv.2 p hp).1 with ⟨i, hi, hkey2⟩
      have : i = st.counter := genSessionId_injective i st.counter (hkey2 ▸ hkey)
      omega
    simp [getDbConnection, SessionStore.validLookup, hl]

/-- Witness for C1: a connectivity fault and an authentication fault both
propagate unchanged from an empty store, which stays empty. -/
theorem createSession_fault_propagates_witness :
    (createSession (Except.error (DatabaseConnectionError "Communication error")) 0
        emptyStore ⟨"user", "pass"⟩ =
      (Except.error (DatabaseConnectionError "Communication error"), emptyStore)) ∧
    getDbConnection 0 emptyStore (genSessionId 0) =
      Except.error (SessionNotFoundError "Session not found") :=
  createSession_fault_propagates (DatabaseConnectionError "Communication error")
    emptyStore ⟨"user", "pass"⟩ 0 0 storeInv_empty

/-- C2: `get_db_connection` signals session-not-found for an identifier
absent from the map, and the literally identical fault for an identifier
present but past its `expires_at` — the two causes are observably
indistinguishable. -/
theorem getDbConnection_absent_or_expired (st : SessionStore) (sid : String)
    (now : Nat) :
    (lookupSession sid st.sessions = none →
      getDbConnection now st sid =
        Except.error (SessionNotFoundError "Session not found")) ∧
    (∀ e, lookupSession sid st.sessions = some e → e.expires_at < now →
      getDbConnection now st sid =
        Except.error (SessionNotFoundError "Session not found")) := by
  constructor
  · intro h
    simp [getDbConnection, SessionStore.validLookup, h]
  · intro e he hexp
    simp [getDbConnection, SessionStore.validLookup, he, hexp]

/-- Witness for C2: a never-issued identifier, and an identifier whose
1-second session is looked up at time 2, both signal the same fault. -/
theorem getDbConnection_absent_or_expired_witness :
    getDbConnection 0 emptyStore "never-issued" =
      Except.error (SessionNotFoundError "Session not found") ∧
    getDbConnection 2 sampleStore "sid" =
      Except.error (SessionNotFoundError "Session not found") :=
  ⟨(getDbConnection_absent_or_expired emptyStore "never-issued" 0).1 rfl,
   (getDbConnection_absent_or_expired sampleStore "sid" 2).2 ⟨0, 1⟩ rfl (by decide)⟩

/-- C3: `destroy_session` never faults (its type carries no fault): on an
absent or expired identifier it is a no-op that calls no `logout`; on a
live identifier it calls `logout` and removes the entry, and its result is
the same whatever the outcome of `logout` — a logout fault is swallowed,
never propagated. -/
theorem destroySession_total (st : SessionStore) (sid : String) (now : Nat)
    (r1 r2 : Except Fault Unit) :
    (st.validLookup now sid = none → destroySession r1 now st sid = (st, false)) ∧
    (∀ e, st.validLookup now sid = some e →
      (destroySession r1 now st sid).2 = true ∧
      lookupSession sid (destroySession r1 now st sid).1.sessions = none) ∧
    destroySession r1 now st sid = destroySession r2 now st sid := by
  refine ⟨?_, ?_, rfl⟩
  · intro h
    simp [destroySession, h]
  · intro e he
    refine ⟨by simp [destroySession, he], ?_⟩
    simp only [destroySession, he]
    exact removeSession_lookup sid st.sessions

/-- Witness for C3: destroying a never-created identifier is a no-op, and
destroying a live session whose `logout` raises a connectivity fault still
succeeds and removes the entry. -/
theorem destroySession_total_witness :
    destroySession (Except.ok ()) 0 emptyStore "never-issued" = (emptyStore, false) ∧
    ((destroySession (Except.error (DatabaseConnectionError "Communication error"))
        0 sampleStore "sid").2 = true ∧
      lookupSession "sid"
        (destroySession (Except.error (DatabaseConnectionError "Communication error"))
          0 sampleStore "sid").1.sessions = none) :=
  ⟨(destroySession_total emptyStore "never-issued" 0 (Except.ok ()) (Except.ok ())).1 rfl,
   (destroySession_total sampleStore "sid" 0
      (Except.error (DatabaseConnectionError "Communication error")) (Except.ok ())).2.1
     ⟨0, 1⟩ rfl⟩

/-- C4: two successive successful `create_session` calls — with arbitrary,
possibly identical credentials — return non-empty identifiers, each
distinct from every identifier the store ever returned before it (hence
from each other), and each bound to a fresh connection instance shared
with no other session. -/
theorem createSession_fresh (st : SessionStore) (creds1 creds2 : LoginCredentials)
    (now1 now2 : Nat) (hinv : StoreInv st) :
    ∃ sid1 st1 sid2 st2,
      createSession (Except.ok ()) now1 st creds1 = (Except.ok sid1, st1) ∧
      createSession (Except.ok ()) now2 st1 creds2 = (Except.ok sid2, st2) ∧
      sid1 ≠ "" ∧ sid2 ≠ "" ∧
      sid1 ∉ st.issued ∧ sid2 ∉ st1.issued ∧ sid1 ≠ sid2 ∧
      (∃ e1, lookupSession sid1 st1.sessions = some e1 ∧
        ∀ p ∈ st.sessions, p.2.conn ≠ e1.conn) ∧
      (∃ e2, lookupSession sid2 st2.sessions = some e2 ∧
        ∀ p ∈ st1.sessions, p.2.conn ≠ e2.conn) := by
  refine ⟨genSessionId st.counter, _, genSessionId (st.counter + 1), _,
    rfl, rfl, genSessionId_ne_empty _, genSessionId_ne_empty _, ?_, ?_, ?_, ?_, ?_⟩
  · intro hmem
    rcases hinv.1 _ hmem with ⟨i, hi, heq⟩
    have : st.counter = i := genSessionId_injective st.counter i heq
    omega
  · intro hmem
    simp only [createSession, List.mem_cons] at hmem
    rcases hmem with heq | hmem
    · have : st.counter + 1 = st.counter :=
        genSessionId_injective (st.counter + 1) st.counter heq
      omega
    · rcases hinv.1 _ hmem with ⟨i, hi, heq⟩
      have : st.counter + 1 = i := genSessionId_injective (st.counter + 1) i heq
      omega
  · intro heq
    have : st.counter = st.counter + 1 :=
      genSessionId_injective st.counter (st.counter + 1) heq
    omega
  · refine ⟨⟨st.counter, now1 + st.settings.duration_seconds⟩,
      lookupSession_cons_self _ _ _, ?_⟩
    intro p hp
    have := (hinv.2 p hp).2
    dsimp only
    omega
  · refine ⟨⟨st.counter + 1, now2 + st.settings.duration_seconds⟩,
      lookupSession_cons_self _ _ _, ?_⟩
    intro p hp
    simp only [createSession, List.mem_cons] at hp
    rcases hp with heq | hp
    · rw [heq]
      dsimp only
      omega
    · have := (hinv.2 p hp).2
      dsimp only
      omega

/-- Witness for C4: two creations with identical credentials on the empty
store. -/
theorem createSession_fresh_witness :
    ∃ sid1 st1 sid2 st2,
      createSession (Except.ok ()) 0 emptyStore ⟨"user", "pass"⟩ = (Except.ok sid1, st1) ∧
      createSession (Except.ok ()) 0 st1 ⟨"user", "pass"⟩ = (Except.ok sid2, st2) ∧
      sid1 ≠ "" ∧ sid2 ≠ "" ∧
      sid1 ∉ emptyStore.issued ∧ sid2 ∉ st1.issued ∧ sid1 ≠ sid2 ∧
      (∃ e1, lookupSession sid1 st1.sessions = some e1 ∧
        ∀ p ∈ emptyStore.sessions, p.2.conn ≠ e1.conn) ∧
      (∃ e2, lookupSession sid2 st2.sessions = some e2 ∧
        ∀ p ∈ st1.sessions, p.2.conn ≠ e2.conn) :=
  createSession_fresh emptyStore ⟨"user", "pass"⟩ ⟨"user", "pass"⟩ 0 0 storeInv_empty

/-! ## Lemmas on the query rewriting -/

theorem replacePair_cons_ne (p1 p2 r1 r2 x : Char) (xs : List Char)
    (hx : x ≠ p1) :
    replacePair p1 p2 r1 r2 (x :: xs) = x :: replacePair p1 p2 r1 r2 xs := by
  cases xs with
  | nil => rfl
  | cons y ys =>
    conv_lhs => rw [replacePair]
    rw [if_neg (fun h => hx h.1)]

theorem replacePair_append (p1 p2 r1 r2 : Char) (xs ys : List Char)
    (h : ∀ x ∈ xs, x ≠ p1) :
    replacePair p1 p2 r1 r2 (xs ++ ys) = xs ++ replacePair p1 p2 r1 r2 ys := by
  induction xs with
  | nil => rfl
  | cons x xs ih =>
    rw [List.cons_append, replacePair_cons_ne _ _ _ _ _ _ (h x (by simp)),
      ih (fun q hq => h q (by simp [hq]))]
    rfl

theorem replacePair_eq_self (p1 p2 r1 r2 : Char) (xs : List Char)
    (h : ∀ x ∈ xs, x ≠ p1) :
    replacePair p1 p2 r1 r2 xs = xs := by
  have h2 := replacePair_append p1 p2 r1 r2 xs [] h
  simpa [show replacePair p1 p2 r1 r2 [] = [] from rfl] using h2

theorem replacePair_head_match (p1 p2 r1 r2 : Char) (rest : List Char) :
    replacePair p1 p2 r1 r2 (p1 :: p2 :: rest) =
      r1 :: r2 :: replacePair p1 p2 r1 r2 rest := by
  conv_lhs => rw [replacePair]
  rw [if_pos ⟨rfl, rfl⟩]

theorem replacePair_head_second_ne (p1 p2 r1 r2 y : Char) (rest : List Char)
    (hy : y ≠ p2) :
    replacePair p1 p2 r1 r2 (p1 :: y :: rest) =
      p1 :: replacePair p1 p2 r1 r2 (y :: rest) := by
  conv_lhs => rw [replacePair]
  rw [if_neg (fun h => hy h.2)]

theorem substParams_cons_ne (x : Char) (xs : List Char) (ps : List (List Char))
    (hx : x ≠ '%') :
    substParams (x :: xs) ps = x :: substParams xs ps := by
  cases xs with
  | nil => rfl
  | cons y ys =>
    conv_lhs => rw [substParams.eq_def]
    dsimp only
    rw [if_neg (fun h => hx h.1)]

theorem substParams_append (xs ys : List Char) (ps : List (List Char))
    (h : ∀ x ∈ xs, x ≠ '%') :
    substParams (xs ++ ys) ps = xs ++ substParams ys ps := by
  induction xs with
  | nil => rfl
  | cons x xs ih =>
    rw [List.cons_append, substParams_cons_ne _ _ _ (h x (by simp)),
      ih (fun q hq => h q (by simp [hq]))]
    rfl

theorem substParams_eq_self (xs : List Char) (ps : List (List Char))
    (h : ∀ x ∈ xs, x ≠ '%') :
    substParams xs ps = xs := by
  have h2 := substParams_append xs [] ps h
  simpa [show substParams [] ps = [] from rfl] using h2

theorem substParams_placeholder (rest : List Char) (p : List Char)
    (tl : List (List Char)) :
    substParams ('%' :: 's' :: rest) (p :: tl) = p ++ substParams rest tl := by
  conv_lhs => rw [substParams.eq_def]
  dsimp only
  rw [if_pos ⟨rfl, rfl⟩]

theorem pgRewrite_u_first (a b c : List Char)
    (ha : ∀ x ∈ a, x ≠ '%') (hb : ∀ x ∈ b, x ≠ '%') (hc : ∀ x ∈ c, x ≠ '%') :
    pgRewritePasswordQuery (a ++ '%' :: 'u' :: (b ++ '%' :: 'p' :: c)) =
      a ++ '%' :: 's' :: (b ++ '%' :: 's' :: c) := by
  unfold pgRewritePasswordQuery
  rw [replacePair_append '%' 'p' '%' 's' a _ ha,
    replacePair_head_second_ne '%' 'p' '%' 's' 'u' _ (by decide),
    replacePair_cons_ne '%' 'p' '%' 's' 'u' _ (by decide),
    replacePair_append '%' 'p' '%' 's' b _ hb,
    replacePair_head_match,
    replacePair_eq_self '%' 'p' '%' 's' c hc,
    replacePair_append '%' 'u' '%' 's' a _ ha,
    replacePair_head_match,
    replacePair_append '%' 'u' '%' 's' b _ hb,
    replacePair_head_second_ne '%' 'u' '%' 's' 's' _ (by decide),
    replacePair_cons_ne '%' 'u' '%' 's' 's' _ (by decide),
    replacePair_eq_self '%' 'u' '%' 's' c hc]

theorem pgRewrite_p_first (a b c : List Char)
    (ha : ∀ x ∈ a, x ≠ '%') (hb : ∀ x ∈ b, x ≠ '%') (hc : ∀ x ∈ c, x ≠ '%') :
    pgRewritePasswordQuery (a ++ '%' :: 'p' :: (b ++ '%' :: 'u' :: c)) =
      a ++ '%' :: 's' :: (b ++ '%' :: 's' :: c) := by
  unfold pgRewritePasswordQuery
  rw [replacePair_append '%' 'p' '%' 's' a _ ha,
    replacePair_head_match,
    replacePair_append '%' 'p' '%' 's' b _ hb,
    replacePair_head_second_ne '%' 'p' '%' 's' 'u' _ (by decide),
    replacePair_cons_ne '%' 'p' '%' 's' 'u' _ (by decide),
    replacePair_eq_self '%' 'p' '%' 's' c hc,
    replacePair_append '%' 'u' '%' 's' a _ ha,
    replacePair_head_second_ne '%' 'u' '%' 's' 's' _ (by decide),
    replacePair_cons_ne '%' 'u' '%' 's' 's' _ (by decide),
    replacePair_append '%' 'u' '%' 's' b _ hb,
    replacePair_head_match,
    replacePair_eq_self '%' 'u' '%' 's' c hc]

theorem substParams_two_placeholders (a b c pw un : List Char)
    (ha : ∀ x ∈ a, x ≠ '%') (hb : ∀ x ∈ b, x ≠ '%') (hc : ∀ x ∈ c, x ≠ '%') :
    substParams (a ++ '%' :: 's' :: (b ++ '%' :: 's' :: c)) [pw, un] =
      a ++ (pw ++ (b ++ (un ++ c))) := by
  rw [substParams_append a _ _ ha, substParams_placeholder,
    substParams_append b _ _ hb, substParams_placeholder,
    substParams_eq_self c _ hc]

/-- C10: `set_password` of the PostgreSQL adapter rewrites every `%p` and
`%u` of the configured `password_query` to `%s` and binds the parameters
positionally as (new password, username): whichever of `%p`/`%u` occurs
first in the query text, the effective statement carries the new password
at the first placeholder and the username at the second. -/
theorem pgSetPassword_positional_binding (a b c pw un : List Char)
    (ha : ∀ x ∈ a, x ≠ '%') (hb : ∀ x ∈ b, x ≠ '%') (hc : ∀ x ∈ c, x ≠ '%') :
    pgEffectiveSetPasswordQuery (a ++ '%' :: 'u' :: (b ++ '%' :: 'p' :: c)) pw un =
      a ++ (pw ++ (b ++ (un ++ c))) ∧
    pgEffectiveSetPasswordQuery (a ++ '%' :: 'p' :: (b ++ '%' :: 'u' :: c)) pw un =
      a ++ (pw ++ (b ++ (un ++ c))) := by
  constructor
  · unfold pgEffectiveSetPasswordQuery
    rw [pgRewrite_u_first a b c ha hb hc]
    exact substParams_two_placeholders a b c pw un ha hb hc
  · unfold pgEffectiveSetPasswordQuery
    rw [pgRewrite_p_first a b c ha hb hc]
    exact substParams_two_placeholders a b c pw un ha hb hc

/-- Witness for C10 on a small concrete query of each placeholder order:
the password lands at the first placeholder even when `%u` comes first. -/
theorem pgSetPassword_positional_binding_witness :
    pgEffectiveSetPasswordQuery
        (['X'] ++ '%' :: 'u' :: (['Y'] ++ '%' :: 'p' :: ['Z'])) ['1'] ['2'] =
      ['X'] ++ (['1'] ++ (['Y'] ++ (['2'] ++ ['Z']))) ∧
    pgEffectiveSetPasswordQuery
        (['X'] ++ '%' :: 'p' :: (['Y'] ++ '%' :: 'u' :: ['Z'])) ['1'] ['2'] =
      ['X'] ++ (['1'] ++ (['Y'] ++ (['2'] ++ ['Z']))) :=
  pgSetPassword_positional_binding ['X'] ['Y'] ['Z'] ['1'] ['2']
    (by decide) (by decide) (by decide)

end Accadm
